import Mathlib

/-!
Verification of the ledger transaction engine of the payment-processor
service, as a shallow embedding in Lean 4.

The embedding follows the Go source:
* `internal/model` : `Card`, `Account`, `Transfer`, `Payment`, `PaymentLog`
  and their status enumerations.
* the card repository / account repository (`FindByID`, `FindByIDForUpdate`,
  `UpdateBalance`, `WithTransaction`): the store is a list of rows; a
  transaction runs a body and discards its writes when the body returns an
  error (gorm rolls back when the closure errors, commits otherwise).
* `TransferService.ProcessTransfer` (card-to-card variant).
* `PaymentService.ProcessCardPayment` (card-debit variant) together with
  `logPayment` (bounded channel with synchronous fallback).
* `PaymentService.ProcessCardPayment` (merchant variant taking raw card
  material) together with `CardValidator.MaskCardNumber`.

Monetary amounts (`decimal.Decimal` in the source, arbitrary-precision
decimals stored as `decimal(20,2)` columns) are embedded as integers in
minor units, which carries the add/subtract/compare algebra the engine
uses verbatim.  Entity identifiers (UUIDs rendered as
strings) are embedded as `String`.  Transient store failures — errors a live
database may return from a read or a write — are injected through explicit
fault parameters; absence of a row yields the not-found branch exactly as
`gorm.ErrRecordNotFound` does in the source.
-/

/-- Balance-holding card row (`internal/model/card.go`), restricted to the
fields the transfer/payment engine reads: id, balance, active flag. -/
structure Card where
  id : String
  balance : ℤ
  active : Bool
deriving DecidableEq, Repr

/-- Account row (`internal/model/account.go`), restricted to the fields the
payment engine reads: id, balance, active flag, merchant flag. -/
structure Account where
  id : String
  balance : ℤ
  active : Bool
  isMerchant : Bool
deriving DecidableEq, Repr

/-- `model.TransferStatus` : pending / completed / failed. -/
inductive TransferStatus where
  | pending
  | completed
  | failed
deriving DecidableEq, Repr

/-- Transfer operation record (`model.Transfer`, card-to-card variant). -/
structure Transfer where
  sourceCardID : String
  destinationCardID : String
  amount : ℤ
  status : TransferStatus
  errorMessage : String
deriving DecidableEq, Repr

/-- `model.PaymentStatus` : pending / accepted / failed. -/
inductive PaymentStatus where
  | pending
  | accepted
  | failed
deriving DecidableEq, Repr

/-- Payment operation record (`model.Payment`, card-debit variant).  The
UUID assigned by the `BeforeCreate` hook is embedded as a `Nat` supplied by
the caller of the operation. -/
structure Payment where
  id : Nat
  merchantAccountID : String
  cardID : String
  amount : ℤ
  status : PaymentStatus
deriving DecidableEq, Repr

/-- Attempt-log entry (`model.PaymentLog`): payment reference, status
observed at log time, optional error message. -/
structure PaymentLog where
  paymentID : Nat
  status : PaymentStatus
  errorMessage : String
deriving DecidableEq, Repr

/-- `cardRepository.FindByIDForUpdate` / `FindByID`: first row whose id
matches, `none` standing for `gorm.ErrRecordNotFound`. -/
def findCard (cards : List Card) (i : String) : Option Card :=
  cards.find? (fun c => c.id == i)

/-- `cardRepository.UpdateBalance`: `UPDATE cards SET balance = ? WHERE id = ?`. -/
def updateCardBalance (cards : List Card) (i : String) (b : ℤ) : List Card :=
  cards.map (fun c => if c.id == i then { c with balance := b } else c)

/-- `accountRepository.FindByID` / `FindByIDForUpdate`. -/
def findAccount (accounts : List Account) (i : String) : Option Account :=
  accounts.find? (fun a => a.id == i)

/-- `accountRepository.UpdateBalance`. -/
def updateAccountBalance (accounts : List Account) (i : String) (b : ℤ) : List Account :=
  accounts.map (fun a => if a.id == i then { a with balance := b } else a)

/-- Transient store failures injectable into one `ProcessTransfer` call:
`some msg` makes the corresponding repository call return an error with
message `msg`; `none` lets it behave normally. -/
structure TransferFaults where
  srcRead : Option String
  dstRead : Option String
  updSrc : Option String
  updDst : Option String
deriving DecidableEq, Repr

/-- A `TransferFaults` value injecting no failure. -/
def noTransferFaults : TransferFaults :=
  { srcRead := none, dstRead := none, updSrc := none, updDst := none }

/-- Outcome of the transaction body of `ProcessTransfer`: the in-memory
transfer record as mutated by the body, the error the closure returned (if
any), the card rows as written through the transaction handle, and the ids
locked with `SELECT ... FOR UPDATE` in acquisition order. -/
structure TxOut where
  t : Transfer
  err : Option String
  cards : List Card
  locks : List String
deriving DecidableEq, Repr

/-- The closure `ProcessTransfer` passes to `WithTransaction`
(card-to-card variant of `ProcessTransfer`, lines 209–276): lock+read the
source card, check active and sufficient balance, lock+read the destination
card, check active, write both balances, mark the record completed.  Every
failure branch stamps the record failed with the branch's message and
returns that error. -/
def transferTxBody (fx : TransferFaults) (cards : List Card)
    (src dst : String) (amount : ℤ) (t0 : Transfer) : TxOut :=
  match fx.srcRead with
  | some m =>
      ⟨{ t0 with status := .failed, errorMessage := m }, some m, cards, [src]⟩
  | none =>
  match findCard cards src with
  | none =>
      ⟨{ t0 with status := .failed, errorMessage := "source card not found" },
        some "source card not found", cards, [src]⟩
  | some sourceCard =>
  if sourceCard.active = false then
      ⟨{ t0 with status := .failed, errorMessage := "source card is not active" },
        some "source card is not active", cards, [src]⟩
  else if sourceCard.balance < amount then
      ⟨{ t0 with status := .failed, errorMessage := "insufficient balance" },
        some "insufficient balance", cards, [src]⟩
  else
  match fx.dstRead with
  | some m =>
      ⟨{ t0 with status := .failed, errorMessage := m }, some m, cards, [src, dst]⟩
  | none =>
  match findCard cards dst with
  | none =>
      ⟨{ t0 with status := .failed, errorMessage := "destination card not found" },
        some "destination card not found", cards, [src, dst]⟩
  | some destCard =>
  if destCard.active = false then
      ⟨{ t0 with status := .failed, errorMessage := "destination card is not active" },
        some "destination card is not active", cards, [src, dst]⟩
  else
    let newSourceBalance := sourceCard.balance - amount
    let newDestBalance := destCard.balance + amount
    match fx.updSrc with
    | some m =>
        ⟨{ t0 with status := .failed, errorMessage := "failed to update source balance: " ++ m },
          some m, cards, [src, dst]⟩
    | none =>
      let cards1 := updateCardBalance cards src newSourceBalance
      match fx.updDst with
      | some m =>
          ⟨{ t0 with status := .failed, errorMessage := "failed to update destination balance: " ++ m },
            some m, cards1, [src, dst]⟩
      | none =>
          ⟨{ t0 with status := .completed }, none,
            updateCardBalance cards1 dst newDestBalance, [src, dst]⟩

/-- Result of one `ProcessTransfer` call: the returned record (`none` for a
nil pointer), the returned error's message, the committed card rows, the
persisted transfer records, the cache keys deleted, the row-lock
acquisition order, and the attempt-log entries emitted by the call. -/
structure TransferResult where
  record : Option Transfer
  error : Option String
  cards : List Card
  transfers : List Transfer
  cacheDeleted : List String
  lockOrder : List String
  logsEmitted : List PaymentLog
deriving DecidableEq, Repr

/-- `transferService.ProcessTransfer` (card-to-card variant):
amount guard, self-transfer guard, transaction over `transferTxBody`
(rolled back when the body errors, per `WithTransaction`), then
`transferRepo.Create` of the record regardless of the transaction outcome,
then cache invalidation of both cards on success.  The transfer path
contains no attempt-log call, so `logsEmitted` is always empty. -/
def ProcessTransfer (fx : TransferFaults) (cards : List Card)
    (transfers : List Transfer) (src dst : String) (amount : ℤ) :
    TransferResult :=
  if amount ≤ 0 then
    ⟨none, some "invalid amount", cards, transfers, [], [], []⟩
  else if src = dst then
    ⟨none, some "cannot transfer to the same card", cards, transfers, [], [], []⟩
  else
    let t0 : Transfer :=
      { sourceCardID := src, destinationCardID := dst, amount := amount,
        status := .pending, errorMessage := "" }
    let o := transferTxBody fx cards src dst amount t0
    match o.err with
    | some e =>
        ⟨some o.t, some e, cards, transfers ++ [o.t], [], o.locks, []⟩
    | none =>
        ⟨some o.t, none, o.cards, transfers ++ [o.t],
          ["card:" ++ src, "card:" ++ dst], o.locks, []⟩

/-- Transient store failures injectable into one `ProcessCardPayment` call
(card-debit variant), plus the state of the bounded log channel seen by
this call: `queueFull` makes the non-blocking channel send fail so that
`logPayment` takes its synchronous fallback; `updStatus` makes every
`paymentRepo.Update` call fail (its error is discarded by the source with
`_ =` except after a committed balance change, where the source returns
the payment as accepted anyway). -/
structure PaymentFaults where
  merchantRead : Option String
  cardRead : Option String
  updBalance : Option String
  updStatus : Bool
  queueFull : Bool
deriving DecidableEq, Repr

/-- A `PaymentFaults` value injecting no failure, with room in the channel. -/
def noPaymentFaults : PaymentFaults :=
  { merchantRead := none, cardRead := none, updBalance := none,
    updStatus := false, queueFull := false }

/-- `paymentRepo.Update` (gorm `Save`): replace the row with the record's
primary key by the record. -/
def updatePayment (payments : List Payment) (p : Payment) : List Payment :=
  payments.map (fun q => if q.id == p.id then p else q)

/-- `logPayment`: non-blocking send on the bounded channel; on a full
channel, a synchronous `paymentLogRepo.Create` on the calling path.
Returns the updated (queued, synchronously persisted) pools. -/
def logRoute (full : Bool) (q sl : List PaymentLog) (l : PaymentLog) :
    List PaymentLog × List PaymentLog :=
  if full then (q, sl ++ [l]) else (q ++ [l], sl)

/-- Result of one `ProcessCardPayment` call (card-debit variant): returned
record and error, committed rows of both stores, persisted payment
records, attempt-log entries emitted by this call, the log channel and the
synchronously-persisted log pool after the call, and deleted cache keys. -/
structure PaymentResult where
  record : Option Payment
  error : Option String
  accounts : List Account
  cards : List Card
  payments : List Payment
  logsEmitted : List PaymentLog
  queuedLogs : List PaymentLog
  syncLogs : List PaymentLog
  cacheDeleted : List String
deriving DecidableEq, Repr

/-- The repeated failure pattern of `ProcessCardPayment` before the pending
record exists: `createPaymentRecord` with status failed, `paymentRepo.Create`,
`logPayment`, return the record together with the error. -/
def paymentFailure (fx : PaymentFaults) (pid : Nat) (mid cid : String)
    (amount : ℤ) (msg : String) (accounts : List Account) (cards : List Card)
    (payments : List Payment) (q sl : List PaymentLog) : PaymentResult :=
  let p : Payment := ⟨pid, mid, cid, amount, .failed⟩
  let l : PaymentLog := ⟨pid, .failed, msg⟩
  let qsl := logRoute fx.queueFull q sl l
  ⟨some p, some msg, accounts, cards, payments ++ [p], [l], qsl.1, qsl.2, []⟩

/-- `paymentService.ProcessCardPayment` (card-debit variant, the second
service in the payment source file): amount guard, per-card mutex (a
liveness-only primitive with no effect on the state), merchant lookup with
active and merchant-role checks, card lock+read with active check, pending
record creation, balance check rejecting a debit that would go negative,
card balance write, status update to accepted (a failed status update
after the committed balance write leaves the call successful), cache
invalidation and attempt logging. -/
def ProcessCardPayment (fx : PaymentFaults) (pid : Nat)
    (accounts : List Account) (cards : List Card) (payments : List Payment)
    (q sl : List PaymentLog) (mid cid : String) (amount : ℤ) : PaymentResult :=
  if amount ≤ 0 then
    ⟨none, some "invalid amount", accounts, cards, payments, [], q, sl, []⟩
  else
  match fx.merchantRead with
  | some m => paymentFailure fx pid mid cid amount m accounts cards payments q sl
  | none =>
  match findAccount accounts mid with
  | none =>
      paymentFailure fx pid mid cid amount "account not found" accounts cards payments q sl
  | some merchant =>
  if merchant.active = false then
      paymentFailure fx pid mid cid amount "account is not active" accounts cards payments q sl
  else if merchant.isMerchant = false then
      paymentFailure fx pid mid cid amount "account is not a merchant" accounts cards payments q sl
  else
  match fx.cardRead with
  | some m => paymentFailure fx pid mid cid amount m accounts cards payments q sl
  | none =>
  match findCard cards cid with
  | none =>
      paymentFailure fx pid mid cid amount "card not found" accounts cards payments q sl
  | some card =>
  if card.active = false then
      paymentFailure fx pid mid cid amount "card is not active" accounts cards payments q sl
  else
    let payment : Payment := ⟨pid, mid, cid, amount, .pending⟩
    let payments1 := payments ++ [payment]
    let newBalance := card.balance - amount
    if newBalance < 0 then
      let p2 : Payment := { payment with status := .failed }
      let payments2 := if fx.updStatus then payments1 else updatePayment payments1 p2
      let l : PaymentLog := ⟨pid, .failed, "insufficient balance"⟩
      let qsl := logRoute fx.queueFull q sl l
      ⟨some p2, some "insufficient balance", accounts, cards, payments2, [l], qsl.1, qsl.2, []⟩
    else
    match fx.updBalance with
    | some m =>
        let p2 : Payment := { payment with status := .failed }
        let payments2 := if fx.updStatus then payments1 else updatePayment payments1 p2
        let l : PaymentLog := ⟨pid, .failed, "failed to update balance: " ++ m⟩
        let qsl := logRoute fx.queueFull q sl l
        ⟨some p2, some ("update balance: " ++ m), accounts, cards, payments2, [l], qsl.1, qsl.2, []⟩
    | none =>
      let cards1 := updateCardBalance cards cid newBalance
      let p2 : Payment := { payment with status := .accepted }
      let l : PaymentLog := ⟨pid, .accepted, ""⟩
      if fx.updStatus then
        let qsl := logRoute fx.queueFull q sl l
        ⟨some p2, none, accounts, cards1, payments1, [l], qsl.1, qsl.2, []⟩
      else
        let payments2 := updatePayment payments1 p2
        let qsl := logRoute fx.queueFull q sl l
        ⟨some p2, none, accounts, cards1, payments2, [l], qsl.1, qsl.2, ["card:" ++ cid]⟩

/-- `strings.ReplaceAll(strings.ReplaceAll(cardNumber, " ", ""), "-", "")`:
removing every space and dash.  Raw card material is embedded as a list of
characters. -/
def stripSpacesDashes (s : List Char) : List Char :=
  s.filter (fun c => !(c == ' ') && !(c == '-'))

/-- `CardValidator.MaskCardNumber`: strip spaces and dashes; when fewer
than 4 characters remain return `****`, otherwise `****` followed by the
last 4 characters. -/
def MaskCardNumber (cardNumber : List Char) : List Char :=
  let c := stripSpacesDashes cardNumber
  if c.length < 4 then ['*', '*', '*', '*']
  else ['*', '*', '*', '*'] ++ c.drop (c.length - 4)

/-- Payment operation record of the merchant variant (`model.Payment` in
the variant that stores card material: masked number, expiry, CVV). -/
structure MPayment where
  id : Nat
  merchantAccountID : String
  amount : ℤ
  cardNumber : List Char
  cardExpiry : List Char
  cardCVV : List Char
  status : PaymentStatus
deriving DecidableEq, Repr

/-- `createPaymentRecord` of the merchant variant: the stored card number
is always `MaskCardNumber` of the raw input; expiry and CVV are stored as
given. -/
def createPaymentRecord (pid : Nat) (mid : String) (amount : ℤ)
    (cardNumber cardExpiry cardCVV : List Char) (status : PaymentStatus) :
    MPayment :=
  ⟨pid, mid, amount, MaskCardNumber cardNumber, cardExpiry, cardCVV, status⟩

/-- `paymentRepo.Update` for merchant-variant records. -/
def updateMPayment (payments : List MPayment) (p : MPayment) : List MPayment :=
  payments.map (fun q => if q.id == p.id then p else q)

/-- Transient failures injectable into one merchant-variant
`ProcessCardPayment` call, mirroring `PaymentFaults`. -/
structure MPaymentFaults where
  merchantRead : Option String
  updBalance : Option String
  updStatus : Bool
  queueFull : Bool
deriving DecidableEq, Repr

/-- An `MPaymentFaults` value injecting no failure. -/
def noMPaymentFaults : MPaymentFaults :=
  { merchantRead := none, updBalance := none, updStatus := false, queueFull := false }

/-- Result of one merchant-variant `ProcessCardPayment` call. -/
structure MPaymentResult where
  record : Option MPayment
  error : Option String
  accounts : List Account
  payments : List MPayment
  logsEmitted : List PaymentLog
  queuedLogs : List PaymentLog
  syncLogs : List PaymentLog
  cacheDeleted : List String
deriving DecidableEq, Repr

/-- The pre-transaction failure pattern of the merchant variant:
failed record via `createPaymentRecord`, `paymentRepo.Create`,
`logPayment`, return record and error. -/
def mPaymentFailure (fx : MPaymentFaults) (pid : Nat) (mid : String)
    (amount : ℤ) (num exp cvv : List Char) (msg : String)
    (accounts : List Account) (payments : List MPayment)
    (q sl : List PaymentLog) : MPaymentResult :=
  let p := createPaymentRecord pid mid amount num exp cvv .failed
  let l : PaymentLog := ⟨pid, .failed, msg⟩
  let qsl := logRoute fx.queueFull q sl l
  ⟨some p, some msg, accounts, payments ++ [p], [l], qsl.1, qsl.2, []⟩

/-- `paymentService.ProcessCardPayment` (merchant variant, the first
service in the payment source file): amount guard; card-format gate —
`ValidateCard` compares the expiry against the wall clock, so its outcome
is passed in as the boolean `cardValid`; merchant lock+read with active
check; pending record; merchant balance credited by the amount; status
update to accepted (non-fatal if it fails after the committed credit);
cache invalidation and attempt logging. -/
def ProcessCardPaymentMerchant (cardValid : Bool) (fx : MPaymentFaults)
    (pid : Nat) (accounts : List Account) (payments : List MPayment)
    (q sl : List PaymentLog) (mid : String) (amount : ℤ)
    (num exp cvv : List Char) : MPaymentResult :=
  if amount ≤ 0 then
    ⟨none, some "invalid amount", accounts, payments, [], q, sl, []⟩
  else if cardValid = false then
    mPaymentFailure fx pid mid amount num exp cvv "invalid card" accounts payments q sl
  else
  match fx.merchantRead with
  | some m => mPaymentFailure fx pid mid amount num exp cvv m accounts payments q sl
  | none =>
  match findAccount accounts mid with
  | none =>
      mPaymentFailure fx pid mid amount num exp cvv "account not found" accounts payments q sl
  | some merchant =>
  if merchant.active = false then
      mPaymentFailure fx pid mid amount num exp cvv "account is not active" accounts payments q sl
  else
    let payment := createPaymentRecord pid mid amount num exp cvv .pending
    let payments1 := payments ++ [payment]
    let newBalance := merchant.balance + amount
    match fx.updBalance with
    | some m =>
        let p2 : MPayment := { payment with status := .failed }
        let payments2 := if fx.updStatus then payments1 else updateMPayment payments1 p2
        let l : PaymentLog := ⟨pid, .failed, "failed to update balance: " ++ m⟩
        let qsl := logRoute fx.queueFull q sl l
        ⟨some p2, some ("update balance: " ++ m), accounts, payments2, [l], qsl.1, qsl.2, []⟩
    | none =>
      let accounts1 := updateAccountBalance accounts mid newBalance
      let p2 : MPayment := { payment with status := .accepted }
      let l : PaymentLog := ⟨pid, .accepted, ""⟩
      if fx.updStatus then
        let qsl := logRoute fx.queueFull q sl l
        ⟨some p2, none, accounts1, payments1, [l], qsl.1, qsl.2, []⟩
      else
        let payments2 := updateMPayment payments1 p2
        let qsl := logRoute fx.queueFull q sl l
        ⟨some p2, none, accounts1, payments2, [l], qsl.1, qsl.2, ["account:" ++ mid]⟩

/-- Lexicographic comparison of identifiers, character by character. -/
def lexLe : List Char → List Char → Bool
  | [], _ => true
  | _ :: _, [] => false
  | a :: as, b :: bs =>
      if a.toNat < b.toNat then true
      else if b.toNat < a.toNat then false
      else lexLe as bs

/-- Modelled from the spec: the canonical two-entity lock-acquisition
order the specification mandates in §4.1 — the two entity identifiers in
lexicographic order, independent of which is the source and which the
destination.  (No such canonicalization exists in the source; this
definition exists to be compared with the order the source actually
uses.) -/
def canonicalLockOrder (x y : String) : List String :=
  if lexLe x.data y.data then [x, y] else [y, x]

/-- Reading a card after writing its balance sees the written balance. -/
theorem findCard_updateCardBalance_self (cs : List Card) (i : String) (b : ℤ) :
    findCard (updateCardBalance cs i b) i =
      (findCard cs i).map (fun c => { c with balance := b }) := by
  induction cs with
  | nil => rfl
  | cons c cs ih =>
    simp only [findCard, updateCardBalance, List.map_cons] at *
    by_cases h : c.id = i
    · rw [List.find?_cons_of_pos _ (by simp [h]), List.find?_cons_of_pos _ (by simp [h])]
      simp [h]
    · rw [List.find?_cons_of_neg _ (by simp [h]), List.find?_cons_of_neg _ (by simp [h])]
      exact ih

/-- Writing one card's balance leaves reads of any other id unchanged. -/
theorem findCard_updateCardBalance_ne (cs : List Card) (i j : String) (b : ℤ)
    (h : j ≠ i) :
    findCard (updateCardBalance cs i b) j = findCard cs j := by
  induction cs with
  | nil => rfl
  | cons c cs ih =>
    simp only [findCard, updateCardBalance, List.map_cons] at *
    by_cases hcj : c.id = j
    · have hci : ¬ c.id = i := fun hci => h (hcj ▸ hci ▸ rfl)
      rw [List.find?_cons_of_pos _ (by simp [hci, hcj, h]), List.find?_cons_of_pos _ (by simp [hcj])]
      simp [hci]
    · by_cases hci : c.id = i
      · rw [List.find?_cons_of_neg _ (by simp [hci, hcj, Ne.symm h]), List.find?_cons_of_neg _ (by simp [hcj])]
        exact ih
      · rw [List.find?_cons_of_neg _ (by simp [hci, hcj]), List.find?_cons_of_neg _ (by simp [hcj])]
        exact ih

/-- When the transaction body of `ProcessTransfer` returns an error, the
in-memory record it hands back is stamped failed. -/
theorem transferTxBody_err_failed (fx : TransferFaults) (cards : List Card)
    (src dst : String) (amount : ℤ) (t0 : Transfer)
    (h : (transferTxBody fx cards src dst amount t0).err ≠ none) :
    (transferTxBody fx cards src dst amount t0).t.status = .failed := by
  revert h
  unfold transferTxBody
  repeat' split
  all_goals simp

/-- Success inversion for the transaction body of `ProcessTransfer`: no
error means both cards were found and active, the source balance covered
the amount, no store failure was injected, and the body wrote exactly the
two balances and completed the record after locking source then
destination. -/
theorem transferTxBody_ok (fx : TransferFaults) (cards : List Card)
    (src dst : String) (amount : ℤ) (t0 : Transfer)
    (h : (transferTxBody fx cards src dst amount t0).err = none) :
    ∃ s d, findCard cards src = some s ∧ s.active = true ∧ amount ≤ s.balance ∧
      findCard cards dst = some d ∧ d.active = true ∧
      transferTxBody fx cards src dst amount t0 =
        ⟨{ t0 with status := .completed }, none,
          updateCardBalance (updateCardBalance cards src (s.balance - amount))
            dst (d.balance + amount), [src, dst]⟩ := by
  cases hsr : fx.srcRead with
  | some m => simp [transferTxBody, hsr] at h
  | none =>
  cases hfs : findCard cards src with
  | none => simp [transferTxBody, hsr, hfs] at h
  | some s =>
  cases hsa : s.active with
  | false => simp [transferTxBody, hsr, hfs, hsa] at h
  | true =>
  by_cases hsb : s.balance < amount
  · simp [transferTxBody, hsr, hfs, hsa, hsb] at h
  · cases hdr : fx.dstRead with
    | some m => simp [transferTxBody, hsr, hfs, hsa, hsb, hdr] at h
    | none =>
    cases hfd : findCard cards dst with
    | none => simp [transferTxBody, hsr, hfs, hsa, hsb, hdr, hfd] at h
    | some d =>
    cases hda : d.active with
    | false => simp [transferTxBody, hsr, hfs, hsa, hsb, hdr, hfd, hda] at h
    | true =>
    cases hus : fx.updSrc with
    | some m => simp [transferTxBody, hsr, hfs, hsa, hsb, hdr, hfd, hda, hus] at h
    | none =>
    cases hud : fx.updDst with
    | some m => simp [transferTxBody, hsr, hfs, hsa, hsb, hdr, hfd, hda, hus, hud] at h
    | none =>
      refine ⟨s, d, rfl, hsa, by omega, rfl, hda, ?_⟩
      simp [transferTxBody, hsr, hfs, hsa, hsb, hdr, hfd, hda, hus, hud]

/-- C1: for every transfer that completes successfully with amount A,
where the source card had balance S and the destination card had balance D
before the call, the committed post-state balances are exactly S−A for the
source and D+A for the destination, and S−A ≥ 0. -/
theorem transfer_success_balances (fx : TransferFaults) (cards : List Card)
    (transfers : List Transfer) (src dst : String) (amount : ℤ) (s d : Card)
    (hs : findCard cards src = some s) (hd : findCard cards dst = some d)
    (hok : (ProcessTransfer fx cards transfers src dst amount).error = none) :
    findCard (ProcessTransfer fx cards transfers src dst amount).cards src =
        some { s with balance := s.balance - amount } ∧
      findCard (ProcessTransfer fx cards transfers src dst amount).cards dst =
        some { d with balance := d.balance + amount } ∧
      0 ≤ s.balance - amount := by
  by_cases hA : amount ≤ 0
  · simp [ProcessTransfer, hA] at hok
  by_cases hsd : src = dst
  · simp [ProcessTransfer, hA, hsd] at hok
  cases hoe : (transferTxBody fx cards src dst amount ⟨src, dst, amount, .pending, ""⟩).err with
  | some e => simp [ProcessTransfer, hA, hsd, hoe] at hok
  | none =>
    obtain ⟨s', d', hs', hsa, hsb, hd', hda, heq⟩ :=
      transferTxBody_ok fx cards src dst amount ⟨src, dst, amount, .pending, ""⟩ hoe
    rw [hs] at hs'
    rw [hd] at hd'
    obtain rfl : s = s' := Option.some_inj.mp hs'
    obtain rfl : d = d' := Option.some_inj.mp hd'
    have hcards : (ProcessTransfer fx cards transfers src dst amount).cards =
        updateCardBalance (updateCardBalance cards src (s.balance - amount)) dst
          (d.balance + amount) := by
      simp [ProcessTransfer, hA, hsd, heq]
    refine ⟨?_, ?_, by omega⟩
    · rw [hcards, findCard_updateCardBalance_ne _ dst src _ hsd,
        findCard_updateCardBalance_self, hs]
      rfl
    · rw [hcards, findCard_updateCardBalance_self,
        findCard_updateCardBalance_ne _ src dst _ (fun hh => hsd hh.symm), hd]
      rfl

/-- Witness for C1: transferring 50 from card a (balance 100) to card b
(balance 10) leaves a at 50 and b at 60. -/
theorem transfer_success_balances_witness :
    findCard (ProcessTransfer noTransferFaults
        [⟨"a", 100, true⟩, ⟨"b", 10, true⟩] [] "a" "b" 50).cards "a" =
        some ⟨"a", 100 - 50, true⟩ ∧
      findCard (ProcessTransfer noTransferFaults
        [⟨"a", 100, true⟩, ⟨"b", 10, true⟩] [] "a" "b" 50).cards "b" =
        some ⟨"b", 10 + 50, true⟩ ∧
      0 ≤ (100 : ℤ) - 50 :=
  transfer_success_balances noTransferFaults
    [⟨"a", 100, true⟩, ⟨"b", 10, true⟩] [] "a" "b" 50
    ⟨"a", 100, true⟩ ⟨"b", 10, true⟩ (by decide) (by decide) (by decide)

/-- C6: every transfer that fails after its transaction has been opened
(amount valid, source ≠ destination) leaves the committed card rows
exactly as they were — all balance writes of the transaction are rolled
back — while the failed Operation Record is still appended to the
persisted transfer records by the separate write after the transaction. -/
theorem transfer_failed_rollback (fx : TransferFaults) (cards : List Card)
    (transfers : List Transfer) (src dst : String) (amount : ℤ) (e : String)
    (hA : 0 < amount) (hsd : src ≠ dst)
    (herr : (ProcessTransfer fx cards transfers src dst amount).error = some e) :
    (ProcessTransfer fx cards transfers src dst amount).cards = cards ∧
      ∃ t, (ProcessTransfer fx cards transfers src dst amount).record = some t ∧
        t.status = .failed ∧
        (ProcessTransfer fx cards transfers src dst amount).transfers =
          transfers ++ [t] := by
  have hA' : ¬ amount ≤ 0 := by omega
  cases hoe : (transferTxBody fx cards src dst amount ⟨src, dst, amount, .pending, ""⟩).err with
  | none => simp [ProcessTransfer, hA', hsd, hoe] at herr
  | some e' =>
    have hst := transferTxBody_err_failed fx cards src dst amount
      ⟨src, dst, amount, .pending, ""⟩ (by simp [hoe])
    refine ⟨?_, (transferTxBody fx cards src dst amount ⟨src, dst, amount, .pending, ""⟩).t,
      ?_, hst, ?_⟩
    all_goals simp [ProcessTransfer, hA', hsd, hoe]

/-- Witness for C6: a transfer from an inactive source card fails, the
source keeps its balance, and a failed record is appended. -/
theorem transfer_failed_rollback_witness :
    (ProcessTransfer noTransferFaults [⟨"a", 100, false⟩, ⟨"b", 10, true⟩] [] "a" "b" 50).cards =
        [⟨"a", 100, false⟩, ⟨"b", 10, true⟩] ∧
      ∃ t, (ProcessTransfer noTransferFaults
          [⟨"a", 100, false⟩, ⟨"b", 10, true⟩] [] "a" "b" 50).record = some t ∧
        t.status = .failed ∧
        (ProcessTransfer noTransferFaults
          [⟨"a", 100, false⟩, ⟨"b", 10, true⟩] [] "a" "b" 50).transfers = [] ++ [t] :=
  transfer_failed_rollback noTransferFaults [⟨"a", 100, false⟩, ⟨"b", 10, true⟩] []
    "a" "b" 50 "source card is not active" (by decide) (by decide) (by decide)

/-- C2 counterexample: a single transfer invocation with amount 0 persists
no Operation Record at all, so after K = 1 invocations the persisted
record count is 0, not 1. -/
theorem transfer_zero_amount_no_record :
    (ProcessTransfer noTransferFaults
        [⟨"a", 100, true⟩, ⟨"b", 10, true⟩] [] "a" "b" 0).transfers.length = 0 ∧
      (ProcessTransfer noTransferFaults
        [⟨"a", 100, true⟩, ⟨"b", 10, true⟩] [] "a" "b" 0).transfers.length ≠ 1 := by
  decide

/-- C2 (amended): an invocation of the transfer operation with a positive
amount and distinct cards, or of the payment operation with a positive
amount, persists exactly one Operation Record whatever its outcome; an
invocation rejected for non-positive amount (or, for transfers, for
self-transfer) persists none and returns a bare error. -/
theorem operation_record_count :
    (∀ fx cards transfers src dst amount, 0 < amount → src ≠ dst →
      (ProcessTransfer fx cards transfers src dst amount).transfers.length =
        transfers.length + 1) ∧
    (∀ fx pid accounts cards payments q sl mid cid amount, 0 < amount →
      (ProcessCardPayment fx pid accounts cards payments q sl mid cid
        amount).payments.length = payments.length + 1) ∧
    (∀ fx cards transfers src dst amount, amount ≤ 0 ∨ src = dst →
      (ProcessTransfer fx cards transfers src dst amount).record = none ∧
      (ProcessTransfer fx cards transfers src dst amount).transfers = transfers) ∧
    (∀ fx pid accounts cards payments q sl mid cid amount, amount ≤ 0 →
      (ProcessCardPayment fx pid accounts cards payments q sl mid cid
        amount).record = none ∧
      (ProcessCardPayment fx pid accounts cards payments q sl mid cid
        amount).payments = payments) := by
  refine ⟨?_, ?_, ?_, ?_⟩
  · intro fx cards transfers src dst amount hA hsd
    have hA' : ¬ amount ≤ 0 := by omega
    cases hoe : (transferTxBody fx cards src dst amount ⟨src, dst, amount, .pending, ""⟩).err <;>
      simp [ProcessTransfer, hA', hsd, hoe]
  · intro fx pid accounts cards payments q sl mid cid amount hA
    have hA' : ¬ amount ≤ 0 := by omega
    simp only [ProcessCardPayment, paymentFailure, logRoute]
    repeat' split
    all_goals simp_all [updatePayment]
  · intro fx cards transfers src dst amount h
    rcases h with h | h
    · simp [ProcessTransfer, h]
    · by_cases hA : amount ≤ 0
      · simp [ProcessTransfer, hA]
      · simp [ProcessTransfer, hA, h]
  · intro fx pid accounts cards payments q sl mid cid amount h
    simp [ProcessCardPayment, h]

/-- Witness for C2 (amended): a concrete transfer and a concrete payment
each persist exactly one record; concrete invalid-amount calls persist
none. -/
theorem operation_record_count_witness :
    (ProcessTransfer noTransferFaults
        [⟨"a", 100, true⟩, ⟨"b", 10, true⟩] [] "a" "b" 50).transfers.length = 0 + 1 ∧
      (ProcessCardPayment noPaymentFaults 7
        [⟨"m", 0, true, true⟩] [⟨"c", 50, true⟩] [] [] [] "m" "c" 20).payments.length = 0 + 1 ∧
      ((ProcessTransfer noTransferFaults
        [⟨"a", 100, true⟩, ⟨"b", 10, true⟩] [] "a" "b" 0).record = none ∧
        (ProcessTransfer noTransferFaults
          [⟨"a", 100, true⟩, ⟨"b", 10, true⟩] [] "a" "b" 0).transfers = []) ∧
      ((ProcessCardPayment noPaymentFaults 7
        [⟨"m", 0, true, true⟩] [⟨"c", 50, true⟩] [] [] [] "m" "c" 0).record = none ∧
        (ProcessCardPayment noPaymentFaults 7
          [⟨"m", 0, true, true⟩] [⟨"c", 50, true⟩] [] [] [] "m" "c" 0).payments = []) :=
  ⟨operation_record_count.1 noTransferFaults [⟨"a", 100, true⟩, ⟨"b", 10, true⟩] []
      "a" "b" 50 (by decide) (by decide),
    operation_record_count.2.1 noPaymentFaults 7 [⟨"m", 0, true, true⟩] [⟨"c", 50, true⟩]
      [] [] [] "m" "c" 20 (by decide),
    operation_record_count.2.2.1 noTransferFaults [⟨"a", 100, true⟩, ⟨"b", 10, true⟩] []
      "a" "b" 0 (Or.inl (by decide)),
    operation_record_count.2.2.2 noPaymentFaults 7 [⟨"m", 0, true, true⟩] [⟨"c", 50, true⟩]
      [] [] [] "m" "c" 0 (by decide)⟩

/-- C3 counterexample: with amount 0 neither operation returns a record
with terminal status at all — the record pointer is nil (here `none`), so
there is no result carrying status Failed; only a bare error is returned. -/
theorem invalid_amount_no_failed_record :
    (ProcessTransfer noTransferFaults
        [⟨"a", 100, true⟩, ⟨"b", 10, true⟩] [] "a" "b" 0).record = none ∧
      (ProcessCardPayment noPaymentFaults 7
        [⟨"m", 0, true, true⟩] [⟨"c", 50, true⟩] [] [] [] "m" "c" 0).record = none := by
  decide

/-- C3 (amended): for every amount ≤ 0 both operations return no record
and the bare error "invalid amount", and neither the balances nor the
persisted records of any store are changed. -/
theorem invalid_amount_rejected (amount : ℤ) (hA : amount ≤ 0) :
    (∀ fx cards transfers src dst,
      (ProcessTransfer fx cards transfers src dst amount).record = none ∧
      (ProcessTransfer fx cards transfers src dst amount).error = some "invalid amount" ∧
      (ProcessTransfer fx cards transfers src dst amount).cards = cards ∧
      (ProcessTransfer fx cards transfers src dst amount).transfers = transfers) ∧
    (∀ fx pid accounts cards payments q sl mid cid,
      (ProcessCardPayment fx pid accounts cards payments q sl mid cid amount).record = none ∧
      (ProcessCardPayment fx pid accounts cards payments q sl mid cid amount).error =
        some "invalid amount" ∧
      (ProcessCardPayment fx pid accounts cards payments q sl mid cid amount).accounts =
        accounts ∧
      (ProcessCardPayment fx pid accounts cards payments q sl mid cid amount).cards = cards ∧
      (ProcessCardPayment fx pid accounts cards payments q sl mid cid amount).payments =
        payments) := by
  constructor
  · intro fx cards transfers src dst
    simp [ProcessTransfer, hA]
  · intro fx pid accounts cards payments q sl mid cid
    simp [ProcessCardPayment, hA]

/-- Witness for C3 (amended): concrete zero-amount calls of both
operations. -/
theorem invalid_amount_rejected_witness :
    ((ProcessTransfer noTransferFaults [⟨"a", 100, true⟩] [] "a" "b" 0).record = none ∧
      (ProcessTransfer noTransferFaults [⟨"a", 100, true⟩] [] "a" "b" 0).error =
        some "invalid amount" ∧
      (ProcessTransfer noTransferFaults [⟨"a", 100, true⟩] [] "a" "b" 0).cards =
        [⟨"a", 100, true⟩] ∧
      (ProcessTransfer noTransferFaults [⟨"a", 100, true⟩] [] "a" "b" 0).transfers = []) ∧
    ((ProcessCardPayment noPaymentFaults 7 [⟨"m", 0, true, true⟩] [⟨"c", 50, true⟩]
        [] [] [] "m" "c" 0).record = none ∧
      (ProcessCardPayment noPaymentFaults 7 [⟨"m", 0, true, true⟩] [⟨"c", 50, true⟩]
        [] [] [] "m" "c" 0).error = some "invalid amount" ∧
      (ProcessCardPayment noPaymentFaults 7 [⟨"m", 0, true, true⟩] [⟨"c", 50, true⟩]
        [] [] [] "m" "c" 0).accounts = [⟨"m", 0, true, true⟩] ∧
      (ProcessCardPayment noPaymentFaults 7 [⟨"m", 0, true, true⟩] [⟨"c", 50, true⟩]
        [] [] [] "m" "c" 0).cards = [⟨"c", 50, true⟩] ∧
      (ProcessCardPayment noPaymentFaults 7 [⟨"m", 0, true, true⟩] [⟨"c", 50, true⟩]
        [] [] [] "m" "c" 0).payments = []) :=
  ⟨(invalid_amount_rejected 0 (by decide)).1 noTransferFaults [⟨"a", 100, true⟩] [] "a" "b",
    (invalid_amount_rejected 0 (by decide)).2 noPaymentFaults 7 [⟨"m", 0, true, true⟩]
      [⟨"c", 50, true⟩] [] [] [] "m" "c"⟩

/-- C4 counterexample: a self-transfer returns no record at all — so no
result with status Failed exists — and the error reads "cannot transfer to
the same card", not "self-transfer". -/
theorem self_transfer_no_failed_record :
    (ProcessTransfer noTransferFaults [⟨"a", 100, true⟩] [] "a" "a" 5).record = none ∧
      (ProcessTransfer noTransferFaults [⟨"a", 100, true⟩] [] "a" "a" 5).error =
        some "cannot transfer to the same card" := by
  decide

/-- C4 (amended): every transfer with a positive amount whose source id
equals its destination id returns no record and the bare error "cannot
transfer to the same card", regardless of balances; no transaction is
opened (no row lock is acquired), no record is persisted and no balance
changes. -/
theorem self_transfer_rejected (fx : TransferFaults) (cards : List Card)
    (transfers : List Transfer) (src dst : String) (amount : ℤ)
    (hA : 0 < amount) (hsd : src = dst) :
    (ProcessTransfer fx cards transfers src dst amount).record = none ∧
      (ProcessTransfer fx cards transfers src dst amount).error =
        some "cannot transfer to the same card" ∧
      (ProcessTransfer fx cards transfers src dst amount).cards = cards ∧
      (ProcessTransfer fx cards transfers src dst amount).transfers = transfers ∧
      (ProcessTransfer fx cards transfers src dst amount).lockOrder = [] := by
  have hA' : ¬ amount ≤ 0 := by omega
  simp [ProcessTransfer, hA', hsd]

/-- Witness for C4 (amended): a concrete self-transfer of 5 between "a"
and "a". -/
theorem self_transfer_rejected_witness :
    (ProcessTransfer noTransferFaults [⟨"a", 100, true⟩] [] "a" "a" 5).record = none ∧
      (ProcessTransfer noTransferFaults [⟨"a", 100, true⟩] [] "a" "a" 5).error =
        some "cannot transfer to the same card" ∧
      (ProcessTransfer noTransferFaults [⟨"a", 100, true⟩] [] "a" "a" 5).cards =
        [⟨"a", 100, true⟩] ∧
      (ProcessTransfer noTransferFaults [⟨"a", 100, true⟩] [] "a" "a" 5).transfers = [] ∧
      (ProcessTransfer noTransferFaults [⟨"a", 100, true⟩] [] "a" "a" 5).lockOrder = [] :=
  self_transfer_rejected noTransferFaults [⟨"a", 100, true⟩] [] "a" "a" 5
    (by decide) (by decide)

/-- C9: the transfer engine acquires its two row locks in
source-then-destination argument order, not in the canonical identifier
order the specification mandates: with cards "a" and "b" both present and
funded, the call transferring from "b" to "a" locks ["b", "a"], which
differs from the canonical order and is exactly the reverse of the order
the opposite-direction call acquires — the circular-wait configuration. -/
theorem transfer_lock_order_not_canonical :
    (ProcessTransfer noTransferFaults
        [⟨"a", 100, true⟩, ⟨"b", 100, true⟩] [] "b" "a" 1).lockOrder = ["b", "a"] ∧
      (ProcessTransfer noTransferFaults
        [⟨"a", 100, true⟩, ⟨"b", 100, true⟩] [] "a" "b" 1).lockOrder = ["a", "b"] ∧
      (ProcessTransfer noTransferFaults
        [⟨"a", 100, true⟩, ⟨"b", 100, true⟩] [] "b" "a" 1).lockOrder ≠
        canonicalLockOrder "b" "a" ∧
      (ProcessTransfer noTransferFaults
        [⟨"a", 100, true⟩, ⟨"b", 100, true⟩] [] "b" "a" 1).lockOrder =
        ((ProcessTransfer noTransferFaults
          [⟨"a", 100, true⟩, ⟨"b", 100, true⟩] [] "a" "b" 1).lockOrder).reverse := by
  decide

/-- C8 counterexample: a transfer that completes successfully — a terminal
Operation Record — emits no attempt-log entry whatsoever: nothing is
enqueued to the log channel and nothing is written synchronously, so no
Attempt Log Entry referencing the transfer can ever be persisted. -/
theorem transfer_emits_no_attempt_log :
    (ProcessTransfer noTransferFaults
        [⟨"a", 100, true⟩, ⟨"b", 10, true⟩] [] "a" "b" 50).record =
        some ⟨"a", "b", 50, .completed, ""⟩ ∧
      (ProcessTransfer noTransferFaults
        [⟨"a", 100, true⟩, ⟨"b", 10, true⟩] [] "a" "b" 50).logsEmitted = [] := by
  decide

/-- Every row of a balance-updated card store is either an original row or
carries the written balance. -/
theorem mem_updateCardBalance (cs : List Card) (i : String) (b : ℤ) (c : Card)
    (hc : c ∈ updateCardBalance cs i b) : c ∈ cs ∨ c.balance = b := by
  unfold updateCardBalance at hc
  obtain ⟨c0, hc0, rfl⟩ := List.mem_map.mp hc
  by_cases h : c0.id = i
  · right; simp [h]
  · left; simpa [h] using hc0

/-- The card rows after a card-debit payment are either unchanged or the
result of one balance write of a non-negative balance on the paying card. -/
theorem processCardPayment_cards_spec (fx : PaymentFaults) (pid : Nat)
    (accounts : List Account) (cards : List Card) (payments : List Payment)
    (q sl : List PaymentLog) (mid cid : String) (amount : ℤ) :
    (ProcessCardPayment fx pid accounts cards payments q sl mid cid amount).cards =
        cards ∨
      ∃ b, 0 ≤ b ∧
        (ProcessCardPayment fx pid accounts cards payments q sl mid cid amount).cards =
          updateCardBalance cards cid b := by
  by_cases hA : amount ≤ 0
  · left; simp [ProcessCardPayment, hA]
  cases hmr : fx.merchantRead with
  | some m => left; simp [ProcessCardPayment, hA, hmr, paymentFailure]
  | none =>
  cases hm : findAccount accounts mid with
  | none => left; simp [ProcessCardPayment, hA, hmr, hm, paymentFailure]
  | some merchant =>
  cases hma : merchant.active with
  | false => left; simp [ProcessCardPayment, hA, hmr, hm, hma, paymentFailure]
  | true =>
  cases hmm : merchant.isMerchant with
  | false => left; simp [ProcessCardPayment, hA, hmr, hm, hma, hmm, paymentFailure]
  | true =>
  cases hcr : fx.cardRead with
  | some m => left; simp [ProcessCardPayment, hA, hmr, hm, hma, hmm, hcr, paymentFailure]
  | none =>
  cases hc : findCard cards cid with
  | none => left; simp [ProcessCardPayment, hA, hmr, hm, hma, hmm, hcr, hc, paymentFailure]
  | some card =>
  cases hca : card.active with
  | false => left; simp [ProcessCardPayment, hA, hmr, hm, hma, hmm, hcr, hc, hca, paymentFailure]
  | true =>
  by_cases hnb : card.balance - amount < 0
  · left; simp [ProcessCardPayment, hA, hmr, hm, hma, hmm, hcr, hc, hca, hnb]
  cases hub : fx.updBalance with
  | some m => left; simp [ProcessCardPayment, hA, hmr, hm, hma, hmm, hcr, hc, hca, hnb, hub]
  | none =>
    right
    refine ⟨card.balance - amount, by omega, ?_⟩
    cases hus : fx.updStatus <;>
      simp [ProcessCardPayment, hA, hmr, hm, hma, hmm, hcr, hc, hca, hnb, hub, hus]

/-- C5: (a) a card-debit payment whose debit would make the card balance
negative ends failed with "insufficient balance" and applies no balance
mutation; (b) consequently the payment operation never makes any
non-negative card balance negative. -/
theorem payment_insufficient_balance :
    (∀ fx pid accounts cards payments q sl mid cid amount
        (merchant : Account) (card : Card),
      fx.merchantRead = none → fx.cardRead = none →
      findAccount accounts mid = some merchant → merchant.active = true →
      merchant.isMerchant = true → findCard cards cid = some card →
      card.active = true → 0 < amount → card.balance - amount < 0 →
      (ProcessCardPayment fx pid accounts cards payments q sl mid cid amount).error =
          some "insufficient balance" ∧
        (ProcessCardPayment fx pid accounts cards payments q sl mid cid amount).record =
          some ⟨pid, mid, cid, amount, .failed⟩ ∧
        (ProcessCardPayment fx pid accounts cards payments q sl mid cid amount).cards =
          cards) ∧
    (∀ fx pid accounts cards payments q sl mid cid amount,
      (∀ c ∈ cards, 0 ≤ c.balance) →
      ∀ c ∈ (ProcessCardPayment fx pid accounts cards payments q sl mid cid amount).cards,
        0 ≤ c.balance) := by
  constructor
  · intro fx pid accounts cards payments q sl mid cid amount merchant card
      hmr hcr hm hma hmm hc hca hA hnb
    have hA' : ¬ amount ≤ 0 := by omega
    simp [ProcessCardPayment, hA', hmr, hm, hma, hmm, hcr, hc, hca, hnb]
  · intro fx pid accounts cards payments q sl mid cid amount hpre c hc
    rcases processCardPayment_cards_spec fx pid accounts cards payments q sl mid cid amount with
      h | ⟨b, hb, h⟩
    · exact hpre c (h ▸ hc)
    · rcases mem_updateCardBalance cards cid b c (h ▸ hc) with hmem | hbal
      · exact hpre c hmem
      · omega

/-- Witness for C5: a card payment of 20 against a card with balance 5
fails with "insufficient balance" and leaves the store unchanged; and a
concrete all-non-negative store stays non-negative. -/
theorem payment_insufficient_balance_witness :
    ((ProcessCardPayment noPaymentFaults 7
        [⟨"m", 0, true, true⟩] [⟨"c", 5, true⟩] [] [] [] "m" "c" 20).error =
          some "insufficient balance" ∧
      (ProcessCardPayment noPaymentFaults 7
        [⟨"m", 0, true, true⟩] [⟨"c", 5, true⟩] [] [] [] "m" "c" 20).record =
          some ⟨7, "m", "c", 20, .failed⟩ ∧
      (ProcessCardPayment noPaymentFaults 7
        [⟨"m", 0, true, true⟩] [⟨"c", 5, true⟩] [] [] [] "m" "c" 20).cards =
          [⟨"c", 5, true⟩]) ∧
    (∀ c ∈ (ProcessCardPayment noPaymentFaults 7
        [⟨"m", 0, true, true⟩] [⟨"c", 5, true⟩] [] [] [] "m" "c" 20).cards,
      0 ≤ c.balance) :=
  ⟨payment_insufficient_balance.1 noPaymentFaults 7 [⟨"m", 0, true, true⟩]
      [⟨"c", 5, true⟩] [] [] [] "m" "c" 20 ⟨"m", 0, true, true⟩ ⟨"c", 5, true⟩
      rfl rfl (by decide) rfl rfl (by decide) rfl (by decide) (by decide),
    payment_insufficient_balance.2 noPaymentFaults 7 [⟨"m", 0, true, true⟩]
      [⟨"c", 5, true⟩] [] [] [] "m" "c" 20 (by decide)⟩

/-- C7: in the card-debit payment, when the balance write commits and only
the subsequent status update on the Operation Record fails, the call still
returns the payment with status Accepted and no error, keeps the committed
debit on the card, and emits one attempt-log entry with status Accepted. -/
theorem payment_status_update_failure_accepted (fx : PaymentFaults) (pid : Nat)
    (accounts : List Account) (cards : List Card) (payments : List Payment)
    (q sl : List PaymentLog) (mid cid : String) (amount : ℤ)
    (merchant : Account) (card : Card)
    (hmr : fx.merchantRead = none) (hcr : fx.cardRead = none)
    (hub : fx.updBalance = none) (hus : fx.updStatus = true)
    (hm : findAccount accounts mid = some merchant) (hma : merchant.active = true)
    (hmm : merchant.isMerchant = true) (hc : findCard cards cid = some card)
    (hca : card.active = true) (hA : 0 < amount)
    (hcb : 0 ≤ card.balance - amount) :
    (ProcessCardPayment fx pid accounts cards payments q sl mid cid amount).error =
        none ∧
      (ProcessCardPayment fx pid accounts cards payments q sl mid cid amount).record =
        some ⟨pid, mid, cid, amount, .accepted⟩ ∧
      findCard (ProcessCardPayment fx pid accounts cards payments q sl mid cid
          amount).cards cid = some { card with balance := card.balance - amount } ∧
      (ProcessCardPayment fx pid accounts cards payments q sl mid cid
          amount).logsEmitted = [⟨pid, .accepted, ""⟩] := by
  have hA' : ¬ amount ≤ 0 := by omega
  have hnb : ¬ (card.balance - amount < 0) := by omega
  have hcards : (ProcessCardPayment fx pid accounts cards payments q sl mid cid
      amount).cards = updateCardBalance cards cid (card.balance - amount) := by
    simp [ProcessCardPayment, hA', hmr, hm, hma, hmm, hcr, hc, hca, hnb, hub, hus]
  refine ⟨?_, ?_, ?_, ?_⟩
  · simp [ProcessCardPayment, hA', hmr, hm, hma, hmm, hcr, hc, hca, hnb, hub, hus]
  · simp [ProcessCardPayment, hA', hmr, hm, hma, hmm, hcr, hc, hca, hnb, hub, hus]
  · rw [hcards, findCard_updateCardBalance_self, hc]
    rfl
  · simp [ProcessCardPayment, hA', hmr, hm, hma, hmm, hcr, hc, hca, hnb, hub, hus, logRoute]

/-- Witness for C7: a payment of 20 against a card with balance 50 under
an injected status-update failure still returns Accepted with the debit
committed and an Accepted attempt-log entry emitted. -/
theorem payment_status_update_failure_accepted_witness :
    (ProcessCardPayment ⟨none, none, none, true, false⟩ 7
        [⟨"m", 0, true, true⟩] [⟨"c", 50, true⟩] [] [] [] "m" "c" 20).error = none ∧
      (ProcessCardPayment ⟨none, none, none, true, false⟩ 7
        [⟨"m", 0, true, true⟩] [⟨"c", 50, true⟩] [] [] [] "m" "c" 20).record =
        some ⟨7, "m", "c", 20, .accepted⟩ ∧
      findCard (ProcessCardPayment ⟨none, none, none, true, false⟩ 7
        [⟨"m", 0, true, true⟩] [⟨"c", 50, true⟩] [] [] [] "m" "c" 20).cards "c" =
        some ⟨"c", 50 - 20, true⟩ ∧
      (ProcessCardPayment ⟨none, none, none, true, false⟩ 7
        [⟨"m", 0, true, true⟩] [⟨"c", 50, true⟩] [] [] [] "m" "c" 20).logsEmitted =
        [⟨7, .accepted, ""⟩] :=
  payment_status_update_failure_accepted ⟨none, none, none, true, false⟩ 7
    [⟨"m", 0, true, true⟩] [⟨"c", 50, true⟩] [] [] [] "m" "c" 20
    ⟨"m", 0, true, true⟩ ⟨"c", 50, true⟩ rfl rfl rfl rfl (by decide) rfl rfl
    (by decide) rfl (by decide) (by decide)

/-- C8 (amended): every card-debit payment invocation that returns an
Operation Record emits exactly one attempt-log entry referencing that
record, and the entry is enqueued to the bounded log channel or, when the
channel is full, written synchronously on the calling path; the transfer
operation emits no attempt-log entry for any of its records. -/
theorem attempt_log_per_operation :
    (∀ fx pid accounts cards payments q sl mid cid amount p,
      (ProcessCardPayment fx pid accounts cards payments q sl mid cid amount).record =
          some p →
      (ProcessCardPayment fx pid accounts cards payments q sl mid cid
          amount).logsEmitted.length = 1 ∧
        (∀ l ∈ (ProcessCardPayment fx pid accounts cards payments q sl mid cid
            amount).logsEmitted, l.paymentID = p.id) ∧
        ((ProcessCardPayment fx pid accounts cards payments q sl mid cid
            amount).queuedLogs =
              q ++ (ProcessCardPayment fx pid accounts cards payments q sl mid cid
                amount).logsEmitted ∧
          (ProcessCardPayment fx pid accounts cards payments q sl mid cid
            amount).syncLogs = sl ∨
          (ProcessCardPayment fx pid accounts cards payments q sl mid cid
            amount).queuedLogs = q ∧
          (ProcessCardPayment fx pid accounts cards payments q sl mid cid
            amount).syncLogs =
              sl ++ (ProcessCardPayment fx pid accounts cards payments q sl mid cid
                amount).logsEmitted)) ∧
    (∀ fx cards transfers src dst amount,
      (ProcessTransfer fx cards transfers src dst amount).logsEmitted = []) := by
  constructor
  · intro fx pid accounts cards payments q sl mid cid amount p
    simp only [ProcessCardPayment, paymentFailure, logRoute]
    repeat' split
    all_goals intro hrec
    all_goals simp_all
    all_goals (subst hrec; rfl)
  · intro fx cards transfers src dst amount
    by_cases hA : amount ≤ 0
    · simp [ProcessTransfer, hA]
    by_cases hsd : src = dst
    · simp [ProcessTransfer, hA, hsd]
    cases hoe : (transferTxBody fx cards src dst amount ⟨src, dst, amount, .pending, ""⟩).err <;>
      simp [ProcessTransfer, hA, hsd, hoe]

/-- Witness for C8 (amended): a concrete successful payment emits exactly
one Accepted entry for its record, routed to the channel; a concrete
transfer emits none. -/
theorem attempt_log_per_operation_witness :
    ((ProcessCardPayment noPaymentFaults 7
        [⟨"m", 0, true, true⟩] [⟨"c", 50, true⟩] [] [] [] "m" "c" 20).logsEmitted.length = 1 ∧
      (∀ l ∈ (ProcessCardPayment noPaymentFaults 7
          [⟨"m", 0, true, true⟩] [⟨"c", 50, true⟩] [] [] [] "m" "c" 20).logsEmitted,
        l.paymentID = (⟨7, "m", "c", 20, .accepted⟩ : Payment).id) ∧
      ((ProcessCardPayment noPaymentFaults 7
          [⟨"m", 0, true, true⟩] [⟨"c", 50, true⟩] [] [] [] "m" "c" 20).queuedLogs =
            [] ++ (ProcessCardPayment noPaymentFaults 7
              [⟨"m", 0, true, true⟩] [⟨"c", 50, true⟩] [] [] [] "m" "c" 20).logsEmitted ∧
        (ProcessCardPayment noPaymentFaults 7
          [⟨"m", 0, true, true⟩] [⟨"c", 50, true⟩] [] [] [] "m" "c" 20).syncLogs = [] ∨
        (ProcessCardPayment noPaymentFaults 7
          [⟨"m", 0, true, true⟩] [⟨"c", 50, true⟩] [] [] [] "m" "c" 20).queuedLogs = [] ∧
        (ProcessCardPayment noPaymentFaults 7
          [⟨"m", 0, true, true⟩] [⟨"c", 50, true⟩] [] [] [] "m" "c" 20).syncLogs =
            [] ++ (ProcessCardPayment noPaymentFaults 7
              [⟨"m", 0, true, true⟩] [⟨"c", 50, true⟩] [] [] [] "m" "c" 20).logsEmitted)) ∧
    (ProcessTransfer noTransferFaults
      [⟨"a", 100, true⟩, ⟨"b", 10, true⟩] [] "a" "b" 50).logsEmitted = [] :=
  ⟨attempt_log_per_operation.1 noPaymentFaults 7 [⟨"m", 0, true, true⟩]
      [⟨"c", 50, true⟩] [] [] [] "m" "c" 20 ⟨7, "m", "c", 20, .accepted⟩ (by decide),
    attempt_log_per_operation.2 noTransferFaults
      [⟨"a", 100, true⟩, ⟨"b", 10, true⟩] [] "a" "b" 50⟩

/-- A masked card number contains at most 4 digit characters. -/
theorem maskCardNumber_digit_bound (num : List Char) :
    ((MaskCardNumber num).filter Char.isDigit).length ≤ 4 := by
  simp only [MaskCardNumber]
  split
  · decide
  · rename_i h
    simp only [List.filter_append]
    have h1 : List.filter Char.isDigit ['*', '*', '*', '*'] = [] := by decide
    rw [h1, List.nil_append]
    calc (((stripSpacesDashes num).drop
          ((stripSpacesDashes num).length - 4)).filter Char.isDigit).length
        ≤ ((stripSpacesDashes num).drop
          ((stripSpacesDashes num).length - 4)).length := List.length_filter_le _ _
      _ = (stripSpacesDashes num).length -
          ((stripSpacesDashes num).length - 4) := by rw [List.length_drop]
      _ ≤ 4 := by omega

/-- A card number with more than 4 digits is never equal to its mask. -/
theorem maskCardNumber_ne (num : List Char)
    (h : 4 < (num.filter Char.isDigit).length) : MaskCardNumber num ≠ num := by
  intro he
  have hb := maskCardNumber_digit_bound num
  rw [he] at hb
  omega

/-- Every row of a status-updated merchant-payment store is an original
row or the updated record itself. -/
theorem mem_updateMPayment (ps : List MPayment) (r : MPayment) (x : MPayment)
    (hx : x ∈ updateMPayment ps r) : x ∈ ps ∨ x = r := by
  unfold updateMPayment at hx
  obtain ⟨x0, hx0, rfl⟩ := List.mem_map.mp hx
  by_cases h : x0.id = r.id
  · right; simp [h]
  · left; simpa [h] using hx0

/-- Appending one masked record preserves the masking invariant. -/
theorem mask_append_step (payments : List MPayment) (r p : MPayment)
    (num : List Char) (hp : p ∈ payments ++ [r])
    (hr : r.cardNumber = MaskCardNumber num) :
    p ∈ payments ∨ (p.cardNumber = MaskCardNumber num ∧
      (4 < (num.filter Char.isDigit).length → p.cardNumber ≠ num)) := by
  rcases List.mem_append.mp hp with h | h
  · exact Or.inl h
  · right
    have hpr : p = r := List.mem_singleton.mp h
    subst hpr
    exact ⟨hr, fun hd => by rw [hr]; exact maskCardNumber_ne num hd⟩

/-- Appending one masked record and then status-updating with a masked
record preserves the masking invariant. -/
theorem mask_update_step (payments : List MPayment) (r r2 p : MPayment)
    (num : List Char) (hp : p ∈ updateMPayment (payments ++ [r]) r2)
    (hr : r.cardNumber = MaskCardNumber num)
    (hr2 : r2.cardNumber = MaskCardNumber num) :
    p ∈ payments ∨ (p.cardNumber = MaskCardNumber num ∧
      (4 < (num.filter Char.isDigit).length → p.cardNumber ≠ num)) := by
  rcases mem_updateMPayment _ _ _ hp with h | h
  · exact mask_append_step payments r p num h hr
  · subst h
    exact Or.inr ⟨hr2, fun hd => by rw [hr2]; exact maskCardNumber_ne num hd⟩

/-- C10: on every success or failure path of the merchant-variant payment,
every newly persisted Payment record stores the masked card number —
`****` plus the last 4 characters of the input stripped of spaces and
dashes, or just `****` when fewer than 4 remain — and therefore, whenever
the input holds more than 4 digits, the stored number differs from the
raw input. -/
theorem merchant_payment_masks_card_number (cardValid : Bool)
    (fx : MPaymentFaults) (pid : Nat) (accounts : List Account)
    (payments : List MPayment) (q sl : List PaymentLog) (mid : String)
    (amount : ℤ) (num exp cvv : List Char) (p : MPayment)
    (hp : p ∈ (ProcessCardPaymentMerchant cardValid fx pid accounts payments q sl
      mid amount num exp cvv).payments) :
    p ∈ payments ∨ (p.cardNumber = MaskCardNumber num ∧
      (4 < (num.filter Char.isDigit).length → p.cardNumber ≠ num)) := by
  revert hp
  simp only [ProcessCardPaymentMerchant, mPaymentFailure, logRoute]
  repeat' split
  all_goals intro hp
  all_goals first
    | exact Or.inl hp
    | exact mask_append_step _ _ _ _ hp rfl
    | exact mask_update_step _ _ _ _ _ hp rfl rfl

/-- Witness for C10: a rejected merchant payment with raw number "12345"
persists exactly the masked record `****2345`, which differs from the raw
input. -/
theorem merchant_payment_masks_card_number_witness :
    (⟨7, "m", 5, "****2345".toList, "12/30".toList, "123".toList, .failed⟩ : MPayment) ∈
        ([] : List MPayment) ∨
      ((⟨7, "m", 5, "****2345".toList, "12/30".toList, "123".toList, .failed⟩ :
          MPayment).cardNumber = MaskCardNumber "12345".toList ∧
        (4 < ("12345".toList.filter Char.isDigit).length →
          (⟨7, "m", 5, "****2345".toList, "12/30".toList, "123".toList, .failed⟩ :
            MPayment).cardNumber ≠ "12345".toList)) :=
  merchant_payment_masks_card_number false noMPaymentFaults 7 [] [] [] [] "m" 5
    "12345".toList "12/30".toList "123".toList
    ⟨7, "m", 5, "****2345".toList, "12/30".toList, "123".toList, .failed⟩
    (by decide)
